import Mathlib

/-!
Shallow embedding of the pull-request publisher of this repository
(`functions.py`: `configure_target_repo`, `create_github_pr_with_code`,
`create_quick_pr`).

Modelling choices:
* The three process-wide configuration values (`GITHUB_TOKEN`,
  `GITHUB_REPO`, `DEFAULT_BRANCH`) are an explicit `Env` record of
  `Option String` (a variable that is unset is `none`; a variable set to
  the empty string is `some ""`, which Python treats as falsy where the
  code tests truthiness).
* The GitHub REST API is a `GitHubWorld`: one field per remote operation
  giving that operation's outcome (`Except String _`, the error carrying
  the transport error's message, matching Python's `str(e)`).
* Every remote call the code performs is recorded, in order, in a trace
  of `GhOp` values; the pair returned by the embedded functions is
  (result, trace).  "No network call was attempted" is "the trace is
  empty".
* Python exceptions are modelled as `Except.error msg`: in the source
  every raised error is a plain `Exception`/`ValueError` holding only a
  message, so the message string is the whole of the error's structure.
* `datetime.datetime.now()` is a `DateTime` record supplied by the
  caller's world; `strftime "%Y%m%d_%H%M%S"` is modelled for four-digit
  years (each `%`-field zero-padded to its fixed width, `%Y` to 4,
  the rest to 2), which is its behaviour for all real dates.
* `git remote get-url origin` is an `Option String` (`some url` when the
  command exits 0, with `url` the stripped stdout; `none` when it fails,
  which the source swallows with `except: pass`).
-/

/-- Truthiness of an optional string, as Python evaluates it: `None` and
the empty string are falsy, every other string is truthy. -/
def truthy : Option String → Bool
  | none => false
  | some s => s ≠ ""

/-- The process-wide configuration: the `GITHUB_TOKEN`, `GITHUB_REPO` and
`DEFAULT_BRANCH` environment variables (`none` = unset). -/
structure Env where
  githubToken : Option String
  githubRepo : Option String
  defaultBranch : Option String
deriving DecidableEq

/-- Embedding of `configure_target_repo(repo_name, default_branch,
github_token)`: always overwrites `GITHUB_REPO` and `DEFAULT_BRANCH`;
overwrites `GITHUB_TOKEN` only when `github_token` is truthy
(`if github_token:` in the source). -/
def configure_target_repo (env : Env) (repo_name : String)
    (default_branch : String) (github_token : Option String) : Env :=
  { githubRepo := some repo_name
    defaultBranch := some default_branch
    githubToken := if truthy github_token then github_token else env.githubToken }

/-- One remote GitHub API call, as recorded in the effect trace. -/
inductive GhOp where
  | getRepo (repoName : String)
  | getBranch (branch : String)
  | listBranches
  | createRef (ref : String) (sha : String)
  | getContents (path : String) (ref : String)
  | updateFile (path : String) (message : String) (content : String)
      (sha : String) (branch : String)
  | createFile (path : String) (message : String) (content : String)
      (branch : String)
  | createPull (title : String) (body : String) (head : String) (base : String)
deriving DecidableEq

/-- Whether an operation reads a file's contents. -/
def GhOp.isRead : GhOp → Bool
  | .getContents _ _ => true
  | _ => false

/-- Whether an operation updates an existing file. -/
def GhOp.isUpdate : GhOp → Bool
  | .updateFile _ _ _ _ _ => true
  | _ => false

/-- Whether an operation creates a fresh file. -/
def GhOp.isCreate : GhOp → Bool
  | .createFile _ _ _ _ => true
  | _ => false

/-- Whether an operation opens a pull request. -/
def GhOp.isPull : GhOp → Bool
  | .createPull _ _ _ _ => true
  | _ => false

/-- Whether an operation creates a branch reference. -/
def GhOp.isRef : GhOp → Bool
  | .createRef _ _ => true
  | _ => false

/-- The remote host's behaviour: the outcome of each REST operation the
publisher may perform.  `getBranchResult` returns the branch tip's commit
sha on success; `getContentsResult` returns the existing file's content
sha; `createPullResult` returns the created pull request's html url. -/
structure GitHubWorld where
  getRepoResult : String → Except String Unit
  getBranchResult : String → Except String String
  branches : List String
  createRefResult : String → String → Except String Unit
  getContentsResult : String → String → Except String String
  updateFileResult : String → String → String → String → String → Except String Unit
  createFileResult : String → String → String → String → Except String Unit
  createPullResult : String → String → String → String → Except String String

/-- The arguments of `create_github_pr_with_code`, in source order. -/
structure PublishArgs where
  code : String
  filename : String
  repo_name : String
  pr_title : String
  pr_description : String
  branch_name : String
  commit_message : String
  github_token : Option String
  target_branch : Option String
deriving DecidableEq

/-- Token resolution, `token = github_token or os.getenv('GITHUB_TOKEN')`:
a truthy explicit parameter wins, otherwise the environment value. -/
def resolveToken (github_token : Option String) (env : Env) : Option String :=
  if truthy github_token then github_token else env.githubToken

/-- Base-branch resolution, `if target_branch is None: target_branch =
os.getenv('DEFAULT_BRANCH', 'main')`: an explicit parameter (even the
empty string) wins; otherwise the environment value when the variable is
set (even to the empty string); otherwise the literal `"main"`. -/
def resolveTargetBranch (target_branch : Option String) (env : Env) : String :=
  match target_branch with
  | some t => t
  | none => env.defaultBranch.getD "main"

/-- The message of the `ValueError` raised when no token is available. -/
def tokenMissingMsg : String :=
  "GitHub token is required. Provide it as parameter or set GITHUB_TOKEN environment variable"

/-- The prefix the top-level `except` clause of `create_github_pr_with_code`
prepends to every failure message. -/
def publishWrapMsg : String := "Failed to create GitHub PR: "

/-- Body of `create_github_pr_with_code`, i.e. everything inside its
top-level `try`.  Returns the result (pull-request url or raised error's
message) together with the trace of remote calls performed, in order. -/
def create_github_pr_inner (env : Env) (w : GitHubWorld) (a : PublishArgs) :
    Except String String × List GhOp :=
  let token := resolveToken a.github_token env
  if truthy token then
    let tb := resolveTargetBranch a.target_branch env
    match w.getRepoResult a.repo_name with
    | .error e =>
        (.error ("Repository '" ++ a.repo_name ++
            "' not found or access denied. Error: " ++ e),
         [GhOp.getRepo a.repo_name])
    | .ok _ =>
      match w.getBranchResult tb with
      | .error e =>
          (.error ("Branch '" ++ tb ++ "' not found. Available branches: " ++
              String.intercalate ", " (w.branches.take 5) ++ ". Error: " ++ e),
           [GhOp.getRepo a.repo_name, GhOp.getBranch tb, GhOp.listBranches])
      | .ok sha =>
        let ref := "refs/heads/" ++ a.branch_name
        let tr0 := [GhOp.getRepo a.repo_name, GhOp.getBranch tb, GhOp.createRef ref sha]
        match w.createRefResult ref sha with
        | .error e => (.error e, tr0)
        | .ok _ =>
          let fileStep : Except String Unit × List GhOp :=
            match w.getContentsResult a.filename a.branch_name with
            | .ok fsha =>
              match w.updateFileResult a.filename a.commit_message a.code fsha a.branch_name with
              | .ok _ =>
                  (.ok (),
                   [GhOp.getContents a.filename a.branch_name,
                    GhOp.updateFile a.filename a.commit_message a.code fsha a.branch_name])
              | .error _ =>
                match w.createFileResult a.filename a.commit_message a.code a.branch_name with
                | .ok _ =>
                    (.ok (),
                     [GhOp.getContents a.filename a.branch_name,
                      GhOp.updateFile a.filename a.commit_message a.code fsha a.branch_name,
                      GhOp.createFile a.filename a.commit_message a.code a.branch_name])
                | .error e2 =>
                    (.error e2,
                     [GhOp.getContents a.filename a.branch_name,
                      GhOp.updateFile a.filename a.commit_message a.code fsha a.branch_name,
                      GhOp.createFile a.filename a.commit_message a.code a.branch_name])
            | .error _ =>
              match w.createFileResult a.filename a.commit_message a.code a.branch_name with
              | .ok _ =>
                  (.ok (),
                   [GhOp.getContents a.filename a.branch_name,
                    GhOp.createFile a.filename a.commit_message a.code a.branch_name])
              | .error e2 =>
                  (.error e2,
                   [GhOp.getContents a.filename a.branch_name,
                    GhOp.createFile a.filename a.commit_message a.code a.branch_name])
          match fileStep with
          | (.error e, ftr) => (.error e, tr0 ++ ftr)
          | (.ok _, ftr) =>
            match w.createPullResult a.pr_title a.pr_description a.branch_name tb with
            | .error e =>
                (.error e,
                 tr0 ++ ftr ++ [GhOp.createPull a.pr_title a.pr_description a.branch_name tb])
            | .ok url =>
                (.ok url,
                 tr0 ++ ftr ++ [GhOp.createPull a.pr_title a.pr_description a.branch_name tb])
  else
    (.error tokenMissingMsg, [])

/-- Embedding of `create_github_pr_with_code`: the body wrapped in the
top-level `try/except` that re-raises every failure as
`Exception("Failed to create GitHub PR: " + str(e))`. -/
def create_github_pr_with_code (env : Env) (w : GitHubWorld) (a : PublishArgs) :
    Except String String × List GhOp :=
  match create_github_pr_inner env w a with
  | (.ok url, tr) => (.ok url, tr)
  | (.error m, tr) => (.error (publishWrapMsg ++ m), tr)

/-- A wall-clock instant as `datetime.datetime.now()` returns it. -/
structure DateTime where
  year : Nat
  month : Nat
  day : Nat
  hour : Nat
  minute : Nat
  second : Nat
deriving DecidableEq

/-- The decimal digit character of `n % 10`. -/
def decimalDigit (n : Nat) : Char := Char.ofNat (48 + n % 10)

/-- A number rendered as exactly two decimal digits, zero-padded, as
`strftime` renders `%m`, `%d`, `%H`, `%M`, `%S`. -/
def format2 (n : Nat) : String :=
  String.mk [decimalDigit (n / 10), decimalDigit n]

/-- A number rendered as exactly four decimal digits, zero-padded, as
`strftime` renders `%Y` for every four-digit year. -/
def format4 (n : Nat) : String :=
  String.mk [decimalDigit (n / 1000), decimalDigit (n / 100), decimalDigit (n / 10),
    decimalDigit n]

/-- Model of `datetime.datetime.now().strftime("%Y%m%d_%H%M%S")`. -/
def strftimeCompact (t : DateTime) : String :=
  format4 t.year ++ format2 t.month ++ format2 t.day ++ "_" ++
    format2 t.hour ++ format2 t.minute ++ format2 t.second

/-- Whether a string matches `\d{8}_\d{6}` exactly, the shape of the
timestamp in the auto-generated branch name. -/
def matchesTimestampShape (s : String) : Bool :=
  s.data.length = 15 && (s.data.take 8).all Char.isDigit &&
    s.data.get? 8 == some '_' && (s.data.drop 9).all Char.isDigit

/-- Splitting engine for `pySplit`: scans the character list left to
right, emitting the accumulated piece and skipping `sep` at each
non-overlapping occurrence.  The fuel argument (always at least the
list's length plus one at the top call) only makes the recursion
structural; it is never exhausted. -/
def pySplitAux (sep : List Char) : Nat → List Char → List Char → List (List Char)
  | _, acc, [] => [acc.reverse]
  | 0, acc, s => [acc.reverse ++ s]
  | fuel + 1, acc, c :: rest =>
    if sep.isPrefixOf (c :: rest) then
      acc.reverse :: pySplitAux sep fuel [] (List.drop sep.length (c :: rest))
    else
      pySplitAux sep fuel (c :: acc) rest

/-- The pieces of a character list split on every non-overlapping
occurrence of `sep`, left to right. -/
def pySplitChars (sep s : List Char) : List (List Char) :=
  pySplitAux sep (s.length + 1) [] s

/-- Model of Python `s.split(sep)` for a non-empty separator. -/
def pySplit (s sep : String) : List String :=
  (pySplitChars sep.data s.data).map String.mk

/-- Model of Python `s.replace(old, new)` for a non-empty `old`: every
non-overlapping occurrence of `old`, found left to right, is replaced
(equivalently, `new.join(s.split(old))`). -/
def pyReplace (s old new : String) : String :=
  String.mk (List.intercalate new.data (pySplitChars old.data s.data))

/-- Model of Python `s.startswith(pre)`. -/
def pyStartsWith (s pre : String) : Bool := pre.data.isPrefixOf s.data

/-- Model of Python `sep.join(parts)`. -/
def pyJoin (sep : String) (parts : List String) : String :=
  String.mk (List.intercalate sep.data (parts.map String.data))

/-- Whether `pat` occurs as a contiguous sublist of the second list. -/
def hasInfix (pat : List Char) : List Char → Bool
  | [] => pat.isEmpty
  | c :: rest => pat.isPrefixOf (c :: rest) || hasInfix pat rest

/-- Python `sub in s` substring test. -/
def strContains (s sub : String) : Bool := hasInfix sub.data s.data

/-- Python's `l[-2:]`: the last two elements of a list (the whole list
when it is shorter). -/
def lastTwo (l : List String) : List String := l.drop (l.length - 2)

/-- Embedding of the git-remote-url parsing of `create_quick_pr`
(everything under `if 'github.com' in url:`): ssh-style urls starting
with `git@` keep the text after the first colon, any other url keeps its
last two `/`-segments; in both cases every occurrence of `".git"` is
removed (`str.replace('.git', '')` replaces all occurrences).  `none`
models both a url without `github.com` and the `IndexError` (swallowed by
`except: pass`) of `split(':')[1]` on a colon-free url. -/
def extract_repo_name (url : String) : Option String :=
  if strContains url "github.com" then
    if pyStartsWith url "git@" then
      match (pySplit url ":").get? 1 with
      | some s => some (pyReplace s ".git" "")
      | none => none
    else
      some (pyReplace (pyJoin "/" (lastTwo (pySplit url "/"))) ".git" "")
  else none

/-- The message of the `ValueError` raised when no repository name can be
determined. -/
def repoMissingMsg : String :=
  "Repository name not found. Set GITHUB_REPO environment variable or run from a git repository"

/-- The local inputs of `create_quick_pr` that do not come from the
remote host: the current wall-clock time and the (stripped) output of
`git remote get-url origin` (`none` when the command fails or exits
non-zero). -/
structure QuickWorld where
  now : DateTime
  gitRemote : Option String

/-- Repository-identifier resolution of `create_quick_pr`: the
`GITHUB_REPO` variable when truthy, else the parsed git remote url. -/
def resolveQuickRepo (env : Env) (qw : QuickWorld) : Option String :=
  if truthy env.githubRepo then env.githubRepo
  else
    match qw.gitRemote with
    | some url => extract_repo_name url
    | none => none

/-- Embedding of `create_quick_pr(code, filename, description)`:
generates the branch name, title and commit message, resolves the
repository identifier, and delegates to `create_github_pr_with_code`. -/
def create_quick_pr (env : Env) (qw : QuickWorld) (w : GitHubWorld)
    (code : String) (filename : String) (description : String) :
    Except String String × List GhOp :=
  let timestamp := strftimeCompact qw.now
  let branch_name := "feature/auto_generated_" ++ timestamp
  let pr_title := "Add " ++ filename
  let commit_message := "Add auto-generated " ++ filename
  let repo := resolveQuickRepo env qw
  if truthy repo then
    create_github_pr_with_code env w
      { code := code
        filename := filename
        repo_name := repo.getD ""
        pr_title := pr_title
        pr_description := description
        branch_name := branch_name
        commit_message := commit_message
        github_token := none
        target_branch := none }
  else
    (.error repoMissingMsg, [])

/-- Strip every occurrence of `".git"` from a string (what
`str.replace('.git', '')` actually does, as opposed to stripping only a
trailing suffix). -/
def stripAllGit (s : String) : String := pyReplace s ".git" ""

/-- The text after the first colon of a url (`url.split(':')[1]`),
`none` when the url has no colon. -/
def afterFirstColon (url : String) : Option String := (pySplit url ":").get? 1

/-- The last two `/`-separated segments of a url, joined with `/`. -/
def lastTwoSegments (url : String) : String := pyJoin "/" (lastTwo (pySplit url "/"))

/-- The amended parsing rule for a git remote url, stated from the
corrected claim's words: only urls containing `github.com` are parsed;
an ssh-style url starting with `git@` yields the text after its first
colon, any other url yields its last two path segments joined as
`owner/repo`; in both cases every occurrence of `".git"` is removed (not
only a trailing suffix). -/
def amendedExtract (url : String) : Option String :=
  if strContains url "github.com" then
    if pyStartsWith url "git@" then Option.map stripAllGit (afterFirstColon url)
    else some (stripAllGit (lastTwoSegments url))
  else none

/-- A remote host on which repository lookup, branch lookup, branch
creation, file creation and pull-request creation all succeed, and the
target file does not yet exist on the new branch. -/
def okWorld : GitHubWorld :=
  { getRepoResult := fun _ => Except.ok ()
    getBranchResult := fun _ => Except.ok "tipsha"
    branches := ["main", "dev"]
    createRefResult := fun _ _ => Except.ok ()
    getContentsResult := fun _ _ => Except.error "404"
    updateFileResult := fun _ _ _ _ _ => Except.ok ()
    createFileResult := fun _ _ _ _ => Except.ok ()
    createPullResult := fun _ _ _ _ => Except.ok "https://github.com/o/r/pull/1" }

/-- A remote host identical to `okWorld` except that the target file
already exists on the new branch (reading it yields sha `"oldsha"`) and
updating it fails with a conflict. -/
def updateFailWorld : GitHubWorld :=
  { getRepoResult := fun _ => Except.ok ()
    getBranchResult := fun _ => Except.ok "tipsha"
    branches := ["main"]
    createRefResult := fun _ _ => Except.ok ()
    getContentsResult := fun _ _ => Except.ok "oldsha"
    updateFileResult := fun _ _ _ _ _ => Except.error "409 conflict"
    createFileResult := fun _ _ _ _ => Except.ok ()
    createPullResult := fun _ _ _ _ => Except.ok "https://github.com/o/r/pull/2" }

/-- A configuration with a token but no repository and no default
branch. -/
def tokenOnlyEnv : Env :=
  { githubToken := some "tok", githubRepo := none, defaultBranch := none }

/-- A configuration with nothing set at all. -/
def emptyEnv : Env :=
  { githubToken := none, githubRepo := none, defaultBranch := none }

/-- A configuration with a token and a configured repository. -/
def fullEnv : Env :=
  { githubToken := some "tok", githubRepo := some "octo/configured", defaultBranch := none }

/-- Concrete publish arguments used to instantiate the theorems below. -/
def sampleArgs : PublishArgs :=
  { code := "print(1)"
    filename := "app.py"
    repo_name := "octo/repo"
    pr_title := "Add app.py"
    pr_description := "desc"
    branch_name := "feature/x"
    commit_message := "Add auto-generated app.py"
    github_token := none
    target_branch := none }

/-- Local inputs whose git remote is an https github url for a
`user.github.io`-style pages repository. -/
def pagesQuick : QuickWorld :=
  { now := { year := 2026, month := 10, day := 12, hour := 9, minute := 30, second := 5 }
    gitRemote := some "https://github.com/octo/my.github.io.git" }

/-! ## Helper lemmas -/

/-- Every character produced by `decimalDigit` is a decimal digit. -/
theorem decimalDigit_isDigit (n : Nat) : (decimalDigit n).isDigit = true := by
  unfold decimalDigit
  have h : n % 10 < 10 := Nat.mod_lt _ (by decide)
  set k := n % 10 with hk
  interval_cases k <;> decide

/-- The timestamp `strftimeCompact` renders always matches the
`\d{8}_\d{6}` shape. -/
theorem strftimeCompact_shape (t : DateTime) :
    matchesTimestampShape (strftimeCompact t) = true := by
  have h : strftimeCompact t =
      String.mk [decimalDigit (t.year / 1000), decimalDigit (t.year / 100),
        decimalDigit (t.year / 10), decimalDigit t.year,
        decimalDigit (t.month / 10), decimalDigit t.month,
        decimalDigit (t.day / 10), decimalDigit t.day, '_',
        decimalDigit (t.hour / 10), decimalDigit t.hour,
        decimalDigit (t.minute / 10), decimalDigit t.minute,
        decimalDigit (t.second / 10), decimalDigit t.second] := rfl
  rw [h]
  simp [matchesTimestampShape, decimalDigit_isDigit]

/-! ## Claim theorems -/

/-- C10: `configure_target_repo` always overwrites the process-wide
`GITHUB_REPO` and `DEFAULT_BRANCH` values with its arguments, while
`GITHUB_TOKEN` is overwritten only when a non-empty token is supplied;
with an absent (`none`) or empty token the previous token is kept. -/
theorem configure_target_repo_effects (env : Env) (rn db : String) (gt : Option String) :
    (configure_target_repo env rn db gt).githubRepo = some rn ∧
    (configure_target_repo env rn db gt).defaultBranch = some db ∧
    (configure_target_repo env rn db gt).githubToken =
      (if truthy gt then gt else env.githubToken) ∧
    (configure_target_repo env rn db none).githubToken = env.githubToken ∧
    (configure_target_repo env rn db (some "")).githubToken = env.githubToken := by
  refine ⟨rfl, rfl, rfl, rfl, ?_⟩
  simp [configure_target_repo, truthy]

/-- C4: with no explicit token and no `GITHUB_TOKEN` configured,
`create_github_pr_with_code` fails with the configuration error (wrapped
by the top-level handler, as every failure is) and its trace is empty:
no remote call is attempted.  A non-empty explicit token always takes
precedence over the configured secret: in every configuration whose
`GITHUB_TOKEN` is set — to any value whatsoever — the token resolved for
a supplied non-empty parameter is the parameter, not the secret. -/
theorem publish_token_requirement (env : Env) (w : GitHubWorld) (a : PublishArgs)
    (hparam : a.github_token = none) (henv : env.githubToken = none) :
    create_github_pr_with_code env w a =
      (Except.error (publishWrapMsg ++ tokenMissingMsg), []) ∧
    (∀ (t secret : String) (repo db : Option String), t ≠ "" →
      resolveToken (some t)
        { githubToken := some secret, githubRepo := repo, defaultBranch := db } =
        some t) := by
  constructor
  · simp [create_github_pr_with_code, create_github_pr_inner, resolveToken, truthy,
      hparam, henv]
  · intro t secret repo db ht
    simp [resolveToken, truthy, ht]

/-- Witness for C4 at a concrete input: an entirely empty configuration
makes the publisher fail with the wrapped token message and an empty
trace, and against a configuration whose secret is `"env-tok"` the
explicit parameter `"param-tok"` is the token resolved. -/
theorem publish_token_requirement_witness :
    create_github_pr_with_code emptyEnv okWorld sampleArgs =
      (Except.error (publishWrapMsg ++ tokenMissingMsg), []) ∧
    resolveToken (some "param-tok")
      { githubToken := some "env-tok", githubRepo := none, defaultBranch := none } =
      some "param-tok" :=
  ⟨(publish_token_requirement emptyEnv okWorld sampleArgs rfl rfl).1,
   (publish_token_requirement emptyEnv okWorld sampleArgs rfl rfl).2
     "param-tok" "env-tok" none none (by decide)⟩

/-- C3: every failure of `create_github_pr_with_code` is the top-level
wrap of the failure of its body: each error the wrapper reports is
`"Failed to create GitHub PR: "` followed by the original message, with
the same trace, and conversely every body failure is reported exactly so.
The error is a bare message (all structure of the original error kind is
lost), matching the source's single `except Exception` boundary. -/
theorem publish_errors_wrapped (env : Env) (w : GitHubWorld) (a : PublishArgs) :
    (∀ m tr, create_github_pr_with_code env w a = (Except.error m, tr) →
      ∃ orig, create_github_pr_inner env w a = (Except.error orig, tr) ∧
        m = publishWrapMsg ++ orig) ∧
    (∀ orig tr, create_github_pr_inner env w a = (Except.error orig, tr) →
      create_github_pr_with_code env w a = (Except.error (publishWrapMsg ++ orig), tr)) := by
  constructor
  · intro m tr h
    unfold create_github_pr_with_code at h
    rcases hi : create_github_pr_inner env w a with ⟨r, tr'⟩
    rw [hi] at h
    cases r with
    | ok url => simp at h
    | error e =>
      simp at h
      exact ⟨e, by rw [h.2], h.1.symm⟩
  · intro orig tr h
    unfold create_github_pr_with_code
    rw [h]

/-- Witness for C3 at a concrete input: the missing-token failure is
reported wrapped. -/
theorem publish_errors_wrapped_witness :
    create_github_pr_with_code emptyEnv okWorld sampleArgs =
      (Except.error (publishWrapMsg ++ tokenMissingMsg), []) :=
  (publish_errors_wrapped emptyEnv okWorld sampleArgs).2 tokenMissingMsg [] rfl

/-- C8: when the repository lookup fails, `create_github_pr_with_code`
fails with the repository-not-found message wrapping the transport
error's message (itself wrapped by the top-level handler), and the trace
holds the failed lookup only: no branch reference, file operation, or
pull request happens. -/
theorem publish_repo_not_found (env : Env) (w : GitHubWorld) (a : PublishArgs) (e : String)
    (htok : truthy (resolveToken a.github_token env) = true)
    (hrepo : w.getRepoResult a.repo_name = Except.error e) :
    create_github_pr_with_code env w a =
      (Except.error (publishWrapMsg ++
        ("Repository '" ++ a.repo_name ++ "' not found or access denied. Error: " ++ e)),
       [GhOp.getRepo a.repo_name]) ∧
    (create_github_pr_with_code env w a).2.filter
      (fun op => op.isRef || op.isRead || op.isUpdate || op.isCreate || op.isPull) = [] := by
  have key : create_github_pr_with_code env w a =
      (Except.error (publishWrapMsg ++
        ("Repository '" ++ a.repo_name ++ "' not found or access denied. Error: " ++ e)),
       [GhOp.getRepo a.repo_name]) := by
    unfold create_github_pr_with_code create_github_pr_inner
    simp [htok, hrepo]
  exact ⟨key, by rw [key]; rfl⟩

/-- Witness for C8 at a concrete input: a host w on which the lookup of
`octocat/missing-repo` is denied. -/
theorem publish_repo_not_found_witness :
    create_github_pr_with_code tokenOnlyEnv
      { okWorld with getRepoResult := fun _ => Except.error "404 Not Found" }
      { sampleArgs with repo_name := "octocat/missing-repo" } =
      (Except.error (publishWrapMsg ++
        ("Repository '" ++ "octocat/missing-repo" ++
          "' not found or access denied. Error: " ++ "404 Not Found")),
       [GhOp.getRepo "octocat/missing-repo"]) :=
  (publish_repo_not_found tokenOnlyEnv
    { okWorld with getRepoResult := fun _ => Except.error "404 Not Found" }
    { sampleArgs with repo_name := "octocat/missing-repo" } "404 Not Found" rfl rfl).1

/-- C6: when the resolved base branch does not exist,
`create_github_pr_with_code` fails with the branch-not-found message,
which lists the first five (so at most five) of the repository's branch
names, each an existing branch. -/
theorem publish_branch_not_found (env : Env) (w : GitHubWorld) (a : PublishArgs) (e : String)
    (htok : truthy (resolveToken a.github_token env) = true)
    (hrepo : w.getRepoResult a.repo_name = Except.ok ())
    (hbr : w.getBranchResult (resolveTargetBranch a.target_branch env) = Except.error e) :
    create_github_pr_with_code env w a =
      (Except.error (publishWrapMsg ++
        ("Branch '" ++ resolveTargetBranch a.target_branch env ++
          "' not found. Available branches: " ++
          String.intercalate ", " (w.branches.take 5) ++ ". Error: " ++ e)),
       [GhOp.getRepo a.repo_name,
        GhOp.getBranch (resolveTargetBranch a.target_branch env), GhOp.listBranches]) ∧
    (w.branches.take 5).length ≤ 5 ∧
    (∀ b ∈ w.branches.take 5, b ∈ w.branches) := by
  refine ⟨?_, ?_, fun b hb => List.take_subset _ _ hb⟩
  · unfold create_github_pr_with_code create_github_pr_inner
    simp [htok, hrepo, hbr]
  · simp [List.length_take]

/-- Witness for C6 at a concrete input: a repository with seven branches
on which the default base branch `main` is missing; the message lists
only the first five. -/
theorem publish_branch_not_found_witness :
    create_github_pr_with_code tokenOnlyEnv
      { okWorld with getBranchResult := fun _ => Except.error "404",
                     branches := ["b1", "b2", "b3", "b4", "b5", "b6", "b7"] }
      sampleArgs =
      (Except.error (publishWrapMsg ++
        ("Branch '" ++ "main" ++ "' not found. Available branches: " ++
          "b1, b2, b3, b4, b5" ++ ". Error: " ++ "404")),
       [GhOp.getRepo "octo/repo", GhOp.getBranch "main", GhOp.listBranches]) := by
  have h := (publish_branch_not_found tokenOnlyEnv
    { okWorld with getBranchResult := fun _ => Except.error "404",
                   branches := ["b1", "b2", "b3", "b4", "b5", "b6", "b7"] }
    sampleArgs "404" (by decide) rfl rfl).1
  simpa using h

/-- C7: when creating the new branch reference fails,
`create_github_pr_with_code` fails with that error wrapped, and the
trace stops at the reference creation: no file is read, created or
updated and no pull request is opened. -/
theorem publish_branch_creation_failure_stops (env : Env) (w : GitHubWorld)
    (a : PublishArgs) (sha e : String)
    (htok : truthy (resolveToken a.github_token env) = true)
    (hrepo : w.getRepoResult a.repo_name = Except.ok ())
    (hbr : w.getBranchResult (resolveTargetBranch a.target_branch env) = Except.ok sha)
    (href : w.createRefResult ("refs/heads/" ++ a.branch_name) sha = Except.error e) :
    create_github_pr_with_code env w a =
      (Except.error (publishWrapMsg ++ e),
       [GhOp.getRepo a.repo_name,
        GhOp.getBranch (resolveTargetBranch a.target_branch env),
        GhOp.createRef ("refs/heads/" ++ a.branch_name) sha]) ∧
    (create_github_pr_with_code env w a).2.filter
      (fun op => op.isRead || op.isUpdate || op.isCreate || op.isPull) = [] := by
  have key : create_github_pr_with_code env w a =
      (Except.error (publishWrapMsg ++ e),
       [GhOp.getRepo a.repo_name,
        GhOp.getBranch (resolveTargetBranch a.target_branch env),
        GhOp.createRef ("refs/heads/" ++ a.branch_name) sha]) := by
    unfold create_github_pr_with_code create_github_pr_inner
    simp [htok, hrepo, hbr, href]
  exact ⟨key, by rw [key]; rfl⟩

/-- Witness for C7 at a concrete input: a host on which the new branch
name already exists, so reference creation is rejected. -/
theorem publish_branch_creation_failure_stops_witness :
    create_github_pr_with_code tokenOnlyEnv
      { okWorld with createRefResult := fun _ _ => Except.error "Reference already exists" }
      sampleArgs =
      (Except.error (publishWrapMsg ++ "Reference already exists"),
       [GhOp.getRepo "octo/repo", GhOp.getBranch "main",
        GhOp.createRef ("refs/heads/" ++ "feature/x") "tipsha"]) := by
  have h := (publish_branch_creation_failure_stops tokenOnlyEnv
    { okWorld with createRefResult := fun _ _ => Except.error "Reference already exists" }
    sampleArgs "tipsha" "Reference already exists" (by decide) rfl rfl rfl).1
  simpa using h

/-- C5: the base branch `create_github_pr_with_code` looks up (the
second remote call of every run that reaches it) is the resolved one:
the explicit `target_branch` parameter when supplied, else the
`DEFAULT_BRANCH` configuration value when set, else the literal
`"main"`. -/
theorem publish_base_branch_resolution (env : Env) (w : GitHubWorld) (a : PublishArgs)
    (htok : truthy (resolveToken a.github_token env) = true)
    (hrepo : w.getRepoResult a.repo_name = Except.ok ()) :
    (create_github_pr_with_code env w a).2.get? 1 =
      some (GhOp.getBranch (resolveTargetBranch a.target_branch env)) ∧
    (∀ t, resolveTargetBranch (some t) env = t) ∧
    (∀ d, resolveTargetBranch none
      { githubToken := env.githubToken, githubRepo := env.githubRepo,
        defaultBranch := some d } = d) ∧
    (resolveTargetBranch none
      { githubToken := env.githubToken, githubRepo := env.githubRepo,
        defaultBranch := none } = "main") := by
  refine ⟨?_, fun t => rfl, fun d => rfl, rfl⟩
  unfold create_github_pr_with_code create_github_pr_inner
  simp only [htok, hrepo, if_true]
  cases hbr : w.getBranchResult (resolveTargetBranch a.target_branch env) with
  | error e => simp [List.get?]
  | ok sha =>
    cases hcr : w.createRefResult ("refs/heads/" ++ a.branch_name) sha with
    | error e => simp [hcr, List.get?]
    | ok u =>
      cases hgc : w.getContentsResult a.filename a.branch_name with
      | ok fsha =>
        cases hup : w.updateFileResult a.filename a.commit_message a.code fsha a.branch_name with
        | ok v =>
          cases hpr : w.createPullResult a.pr_title a.pr_description a.branch_name
              (resolveTargetBranch a.target_branch env) with
          | ok url => simp [hcr, hgc, hup, hpr, List.get?]
          | error e => simp [hcr, hgc, hup, hpr, List.get?]
        | error e =>
          cases hcf : w.createFileResult a.filename a.commit_message a.code a.branch_name with
          | ok v =>
            cases hpr : w.createPullResult a.pr_title a.pr_description a.branch_name
                (resolveTargetBranch a.target_branch env) with
            | ok url => simp [hcr, hgc, hup, hcf, hpr, List.get?]
            | error e2 => simp [hcr, hgc, hup, hcf, hpr, List.get?]
          | error e2 => simp [hcr, hgc, hup, hcf, List.get?]
      | error e =>
        cases hcf : w.createFileResult a.filename a.commit_message a.code a.branch_name with
        | ok v =>
          cases hpr : w.createPullResult a.pr_title a.pr_description a.branch_name
              (resolveTargetBranch a.target_branch env) with
          | ok url => simp [hcr, hgc, hcf, hpr, List.get?]
          | error e2 => simp [hcr, hgc, hcf, hpr, List.get?]
        | error e2 => simp [hcr, hgc, hcf, List.get?]

/-- Witness for C5 at a concrete input: with no parameter and no
configured default, the branch looked up is `"main"`. -/
theorem publish_base_branch_resolution_witness :
    (create_github_pr_with_code tokenOnlyEnv okWorld sampleArgs).2.get? 1 =
      some (GhOp.getBranch "main") := by
  have h := (publish_base_branch_resolution tokenOnlyEnv okWorld sampleArgs
    (by decide) rfl).1
  simpa using h

/-- Counterexample to C2 as stated: a run on which reading the target
file on the new branch succeeds (the host returns sha `"oldsha"`) and
yet a fresh file creation is performed — because the in-place update
raised and the bare `except:` fell through to `create_file`.  The claim
allows only an update after a successful read, so this third outcome
refutes it. -/
theorem publish_file_step_third_outcome :
    updateFailWorld.getContentsResult "app.py" "feature/x" = Except.ok "oldsha" ∧
    (create_github_pr_with_code tokenOnlyEnv updateFailWorld sampleArgs).2.filter
        GhOp.isCreate =
      [GhOp.createFile "app.py" "Add auto-generated app.py" "print(1)" "feature/x"] ∧
    (create_github_pr_with_code tokenOnlyEnv updateFailWorld sampleArgs).1 =
      Except.ok "https://github.com/o/r/pull/2" := by
  exact ⟨rfl, by decide, rfl⟩

/-- C2 (amended): in the file-write step of `create_github_pr_with_code`
(under a resolvable token and successful repository, branch and
reference steps), a successful read followed by a successful update
yields exactly one in-place update carrying the read sha and no
creation; a successful read whose update then fails yields a fresh
creation as well (the bare `except:` also catches update failures); a
failed read yields a fresh creation and no update.  These three are the
only outcomes. -/
theorem publish_file_step_outcomes (env : Env) (w : GitHubWorld) (a : PublishArgs)
    (sha : String)
    (htok : truthy (resolveToken a.github_token env) = true)
    (hrepo : w.getRepoResult a.repo_name = Except.ok ())
    (hbr : w.getBranchResult (resolveTargetBranch a.target_branch env) = Except.ok sha)
    (hcr : w.createRefResult ("refs/heads/" ++ a.branch_name) sha = Except.ok ()) :
    (∀ fsha, w.getContentsResult a.filename a.branch_name = Except.ok fsha →
      w.updateFileResult a.filename a.commit_message a.code fsha a.branch_name =
        Except.ok () →
      (create_github_pr_with_code env w a).2.filter GhOp.isUpdate =
        [GhOp.updateFile a.filename a.commit_message a.code fsha a.branch_name] ∧
      (create_github_pr_with_code env w a).2.filter GhOp.isCreate = []) ∧
    (∀ fsha e, w.getContentsResult a.filename a.branch_name = Except.ok fsha →
      w.updateFileResult a.filename a.commit_message a.code fsha a.branch_name =
        Except.error e →
      (create_github_pr_with_code env w a).2.filter GhOp.isCreate =
        [GhOp.createFile a.filename a.commit_message a.code a.branch_name]) ∧
    (∀ e, w.getContentsResult a.filename a.branch_name = Except.error e →
      (create_github_pr_with_code env w a).2.filter GhOp.isUpdate = [] ∧
      (create_github_pr_with_code env w a).2.filter GhOp.isCreate =
        [GhOp.createFile a.filename a.commit_message a.code a.branch_name]) := by
  unfold create_github_pr_with_code create_github_pr_inner
  simp only [htok, hrepo, hbr, if_true]
  refine ⟨?_, ?_, ?_⟩
  · intro fsha hgc hup
    cases hpr : w.createPullResult a.pr_title a.pr_description a.branch_name
        (resolveTargetBranch a.target_branch env) with
    | ok url =>
      constructor <;>
        simp [hcr, hgc, hup, hpr, List.filter, GhOp.isUpdate, GhOp.isCreate]
    | error e =>
      constructor <;>
        simp [hcr, hgc, hup, hpr, List.filter, GhOp.isUpdate, GhOp.isCreate]
  · intro fsha e hgc hup
    cases hcf : w.createFileResult a.filename a.commit_message a.code a.branch_name with
    | ok v =>
      cases hpr : w.createPullResult a.pr_title a.pr_description a.branch_name
          (resolveTargetBranch a.target_branch env) with
      | ok url => simp [hcr, hgc, hup, hcf, hpr, List.filter, GhOp.isUpdate, GhOp.isCreate]
      | error e2 => simp [hcr, hgc, hup, hcf, hpr, List.filter, GhOp.isUpdate, GhOp.isCreate]
    | error e2 => simp [hcr, hgc, hup, hcf, List.filter, GhOp.isUpdate, GhOp.isCreate]
  · intro e hgc
    cases hcf : w.createFileResult a.filename a.commit_message a.code a.branch_name with
    | ok v =>
      cases hpr : w.createPullResult a.pr_title a.pr_description a.branch_name
          (resolveTargetBranch a.target_branch env) with
      | ok url =>
        constructor <;>
          simp [hcr, hgc, hcf, hpr, List.filter, GhOp.isUpdate, GhOp.isCreate]
      | error e2 =>
        constructor <;>
          simp [hcr, hgc, hcf, hpr, List.filter, GhOp.isUpdate, GhOp.isCreate]
    | error e2 =>
      constructor <;>
        simp [hcr, hgc, hcf, List.filter, GhOp.isUpdate, GhOp.isCreate]

/-- Witness for C2 (amended) at a concrete input: on a host where the
file does not yet exist (the read fails with a 404), the run performs no
update and exactly one fresh creation. -/
theorem publish_file_step_outcomes_witness :
    (create_github_pr_with_code tokenOnlyEnv okWorld sampleArgs).2.filter
        GhOp.isUpdate = [] ∧
    (create_github_pr_with_code tokenOnlyEnv okWorld sampleArgs).2.filter
        GhOp.isCreate =
      [GhOp.createFile "app.py" "Add auto-generated app.py" "print(1)" "feature/x"] := by
  have h := (publish_file_step_outcomes tokenOnlyEnv okWorld sampleArgs "tipsha"
    (by decide) rfl rfl rfl).2.2 "404" rfl
  simpa using h

/-- C9: under a resolvable repository identifier, `create_quick_pr`
delegates to `create_github_pr_with_code` with the auto-generated branch
name (fixed prefix plus second-resolution timestamp), title
`"Add {filename}"`, commit message `"Add auto-generated {filename}"`,
the supplied description as the pull-request body, and the code and
filename passed through unchanged; the timestamp matches
`\d{8}_\d{6}`. -/
theorem quick_pr_delegation (env : Env) (qw : QuickWorld) (w : GitHubWorld)
    (code filename description r : String)
    (hrepo : resolveQuickRepo env qw = some r) (hr : r ≠ "") :
    create_quick_pr env qw w code filename description =
      create_github_pr_with_code env w
        { code := code, filename := filename, repo_name := r,
          pr_title := "Add " ++ filename, pr_description := description,
          branch_name := "feature/auto_generated_" ++ strftimeCompact qw.now,
          commit_message := "Add auto-generated " ++ filename,
          github_token := none, target_branch := none } ∧
    matchesTimestampShape (strftimeCompact qw.now) = true := by
  refine ⟨?_, strftimeCompact_shape qw.now⟩
  unfold create_quick_pr
  rw [hrepo]
  simp [truthy, hr]

/-- Witness for C9 at a concrete input: with `GITHUB_REPO` configured,
the quick call equals the fully-spelled-out publish call. -/
theorem quick_pr_delegation_witness :
    create_quick_pr fullEnv pagesQuick okWorld "print(1)" "app.py" "desc" =
      create_github_pr_with_code fullEnv okWorld
        { code := "print(1)", filename := "app.py", repo_name := "octo/configured",
          pr_title := "Add " ++ "app.py", pr_description := "desc",
          branch_name := "feature/auto_generated_" ++ strftimeCompact pagesQuick.now,
          commit_message := "Add auto-generated " ++ "app.py",
          github_token := none, target_branch := none } ∧
    matchesTimestampShape (strftimeCompact pagesQuick.now) = true :=
  quick_pr_delegation fullEnv pagesQuick okWorld "print(1)" "app.py" "desc"
    "octo/configured" (by decide) (by decide)

/-- Counterexample to C1 as stated: with `GITHUB_REPO` unset and the git
remote `https://github.com/octo/my.github.io.git`, stripping only a
trailing `.git` (as the claim says) would give `octo/my.github.io`, but
the code's `replace('.git', '')` removes every occurrence of `".git"`,
so the repository identifier actually used (the first remote lookup of
the run) is `octo/myhub.io`. -/
theorem quick_pr_git_suffix_counterexample :
    (create_quick_pr tokenOnlyEnv pagesQuick okWorld "print(1)" "app.py" "desc").2.head? =
      some (GhOp.getRepo "octo/myhub.io") ∧
    extract_repo_name "https://github.com/octo/my.github.io.git" =
      some "octo/myhub.io" ∧
    "octo/myhub.io" ≠ "octo/my.github.io" := by
  refine ⟨?_, by decide, by decide⟩
  decide

/-- Helper: the code's git-remote parsing coincides with the amended
rule's formulation. -/
theorem extract_eq_amended (url : String) :
    extract_repo_name url = amendedExtract url := by
  unfold extract_repo_name amendedExtract stripAllGit afterFirstColon lastTwoSegments
  by_cases hc : strContains url "github.com"
  · by_cases hg : pyStartsWith url "git@"
    · cases h : (pySplit url ":").get? 1 <;> simp [hc, hg, h]
    · simp [hc, hg]
  · simp [hc]

/-- C1 (amended): the repository identifier of `create_quick_pr` is the
`GITHUB_REPO` value when that is set and non-empty; otherwise it is
parsed from the git remote url by the amended rule (urls containing
`github.com` only; ssh-style `git@` urls keep the text after the first
colon, other urls keep their last two `/`-segments; every occurrence of
`".git"` is removed, not only a trailing suffix); when no non-empty
identifier results, the call fails with the configuration error before
any remote call. -/
theorem quick_pr_repo_resolution_amended (env : Env) (qw : QuickWorld) (w : GitHubWorld)
    (code filename description : String) :
    (truthy env.githubRepo = true → resolveQuickRepo env qw = env.githubRepo) ∧
    (truthy env.githubRepo = false →
      resolveQuickRepo env qw = Option.bind qw.gitRemote amendedExtract) ∧
    (truthy (resolveQuickRepo env qw) = false →
      create_quick_pr env qw w code filename description =
        (Except.error repoMissingMsg, [])) ∧
    (∀ r, resolveQuickRepo env qw = some r → r ≠ "" →
      create_quick_pr env qw w code filename description =
        create_github_pr_with_code env w
          { code := code, filename := filename, repo_name := r,
            pr_title := "Add " ++ filename, pr_description := description,
            branch_name := "feature/auto_generated_" ++ strftimeCompact qw.now,
            commit_message := "Add auto-generated " ++ filename,
            github_token := none, target_branch := none }) := by
  refine ⟨?_, ?_, ?_, ?_⟩
  · intro h
    simp [resolveQuickRepo, h]
  · intro h
    cases hgr : qw.gitRemote <;> simp [resolveQuickRepo, h, hgr, extract_eq_amended]
  · intro h
    simp [create_quick_pr, h]
  · intro r hrepo hr
    unfold create_quick_pr
    rw [hrepo]
    simp [truthy, hr]

/-- Witness for C1 (amended) at a concrete input: the pages-repository
remote url resolves to `octo/myhub.io` and the quick call delegates with
that identifier. -/
theorem quick_pr_repo_resolution_amended_witness :
    create_quick_pr tokenOnlyEnv pagesQuick okWorld "print(1)" "app.py" "desc" =
      create_github_pr_with_code tokenOnlyEnv okWorld
        { code := "print(1)", filename := "app.py", repo_name := "octo/myhub.io",
          pr_title := "Add " ++ "app.py", pr_description := "desc",
          branch_name := "feature/auto_generated_" ++ strftimeCompact pagesQuick.now,
          commit_message := "Add auto-generated " ++ "app.py",
          github_token := none, target_branch := none } :=
  (quick_pr_repo_resolution_amended tokenOnlyEnv pagesQuick okWorld
    "print(1)" "app.py" "desc").2.2.2 "octo/myhub.io" (by decide) (by decide)
